import Mathlib

/-!
Shallow embedding of `parking_cost_calculator.py` (an interactive Shoup-model
parking cost dashboard).  Python floats are modelled as rationals, Python
`int()` as truncation toward zero, and fallible float division (which raises
`ZeroDivisionError` in Python) as an `Option`-valued division.  A Python
expression that raises is rendered as the embedding returning `none`.
-/

namespace ParkingCalc

/-- Python `int(x)` conversion: truncation toward zero (floor for
nonnegative arguments, ceiling for negative ones). -/
def pyInt (q : ℚ) : ℤ := if 0 ≤ q then q.floor else q.ceil

/-- Python float division `a / b`: raises `ZeroDivisionError` when `b = 0`,
modelled as `none`. -/
def pydiv (a b : ℚ) : Option ℚ := if b = 0 then none else some (a / b)

/-- The sidebar parameter variables of the Calculator tab (`tab1`), in the
order the widgets declare them.  Each is a Python float. -/
structure Params where
  spaces : ℚ
  years : ℚ
  opportunity_multiplier : ℚ
  land_cost : ℚ
  construction_cost : ℚ
  maintenance_cost : ℚ
  inflation_rate : ℚ
  discount_rate : ℚ
  occupancy_rate : ℚ
  environmental_cost : ℚ
  parking_fee : ℚ
  car_ownership_rate : ℚ
  parking_demand_factor : ℚ
deriving DecidableEq

/-- The value ranges enforced by the input widgets (`min_value` and slider
bounds): spaces ≥ 1, years ≥ 1, the opportunity multiplier slider spans
0–100, and every cost/rate input has `min_value = 0`. -/
def ValidParams (p : Params) : Prop :=
  1 ≤ p.spaces ∧ 1 ≤ p.years ∧
  0 ≤ p.opportunity_multiplier ∧ p.opportunity_multiplier ≤ 100 ∧
  0 ≤ p.land_cost ∧ 0 ≤ p.construction_cost ∧ 0 ≤ p.maintenance_cost ∧
  0 ≤ p.inflation_rate ∧ 0 ≤ p.discount_rate ∧ 0 ≤ p.occupancy_rate ∧
  0 ≤ p.environmental_cost ∧ 0 ≤ p.parking_fee ∧
  0 ≤ p.car_ownership_rate ∧ 0 ≤ p.parking_demand_factor

instance : DecidablePred ValidParams := fun p => by
  unfold ValidParams; infer_instance

/-- `total_land_cost = land_cost * spaces * 15` (15 sqm per space). -/
def total_land_cost (p : Params) : ℚ := p.land_cost * p.spaces * 15

/-- `total_construction_cost = construction_cost * spaces`. -/
def total_construction_cost (p : Params) : ℚ := p.construction_cost * p.spaces

/-- The number of iterations of the NPV maintenance loop:
`range(1, int(years) + 1)` runs `int(years)` times. -/
def nyears (p : Params) : ℕ := (pyInt p.years).toNat

/-- The NPV maintenance accumulation loop after `n` iterations: iteration
`k` (0-based) adds `maintenance_cost * spaces * (1+inflation_rate/100)^(k+1)
/ (1+discount_rate/100)^(k+1)`, with Python float division. -/
def npv_loop (p : Params) : ℕ → Option ℚ
  | 0 => some 0
  | n + 1 =>
    match npv_loop p n with
    | none => none
    | some acc =>
      (pydiv (p.maintenance_cost * p.spaces * (1 + p.inflation_rate / 100) ^ (n + 1))
          ((1 + p.discount_rate / 100) ^ (n + 1))).map (fun d => acc + d)

/-- `npv_maintenance`: the full loop `for year in range(1, int(years)+1)`. -/
def npv_maintenance (p : Params) : Option ℚ := npv_loop p (nyears p)

/-- `total_opportunity_cost = total_land_cost * opportunity_multiplier`. -/
def total_opportunity_cost (p : Params) : ℚ :=
  total_land_cost p * p.opportunity_multiplier

/-- `total_environmental_cost = environmental_cost * spaces * years`. -/
def total_environmental_cost (p : Params) : ℚ :=
  p.environmental_cost * p.spaces * p.years

/-- `total_cost`: sum of the five components as computed in `tab1`. -/
def total_cost (p : Params) : Option ℚ :=
  (npv_maintenance p).map (fun npv =>
    total_land_cost p + total_construction_cost p + npv +
      total_opportunity_cost p + total_environmental_cost p)

/-- `cost_per_space = total_cost / spaces`. -/
def cost_per_space (p : Params) : Option ℚ :=
  (total_cost p).bind (fun t => pydiv t p.spaces)

/-- `cost_per_year = total_cost / years`. -/
def cost_per_year (p : Params) : Option ℚ :=
  (total_cost p).bind (fun t => pydiv t p.years)

/-- The value of the NPV maintenance sum after `n` periods, as a plain
rational (the loop never divides by zero once `1 + discount_rate/100 ≠ 0`). -/
def npvSum (p : Params) (n : ℕ) : ℚ :=
  ∑ t ∈ Finset.range n,
    p.maintenance_cost * p.spaces * (1 + p.inflation_rate / 100) ^ (t + 1) /
      (1 + p.discount_rate / 100) ^ (t + 1)

lemma npv_loop_eq_sum (p : Params) (hd : (1 : ℚ) + p.discount_rate / 100 ≠ 0) :
    ∀ n : ℕ, npv_loop p n = some (npvSum p n) := by
  intro n
  induction n with
  | zero => simp [npv_loop, npvSum]
  | succ n ih =>
    rw [npv_loop, ih]
    have hpow : ((1 : ℚ) + p.discount_rate / 100) ^ (n + 1) ≠ 0 := pow_ne_zero _ hd
    simp [pydiv, hpow, npvSum, Finset.sum_range_succ]

/-- The plain value of `total_cost` (defined whenever the loop divisions are). -/
def total_cost_val (p : Params) : ℚ :=
  total_land_cost p + total_construction_cost p + npvSum p (nyears p) +
    total_opportunity_cost p + total_environmental_cost p

lemma one_add_div_ne_zero {d : ℚ} (hd : 0 ≤ d) : (1 : ℚ) + d / 100 ≠ 0 := by
  have : (0 : ℚ) < 1 + d / 100 := by positivity
  exact ne_of_gt this

lemma npv_maintenance_eq (p : Params) (hd : (1 : ℚ) + p.discount_rate / 100 ≠ 0) :
    npv_maintenance p = some (npvSum p (nyears p)) :=
  npv_loop_eq_sum p hd (nyears p)

lemma total_cost_eq (p : Params) (hd : (1 : ℚ) + p.discount_rate / 100 ≠ 0) :
    total_cost p = some (total_cost_val p) := by
  rw [total_cost, npv_maintenance_eq p hd]
  rfl

/-- The default sidebar values of the source (`value=` of each widget),
which are exactly the example scenario of the spec. -/
def baseParams : Params :=
  ⟨100, 10, 50, 1000, 5000, 500, 2, 5, 80, 100, 2, 50, 1⟩

/-- The exact value of the 10-period discounted maintenance sum at the base
scenario: `50000 * Σ_{t=1..10} (34/35)^t = 1700000 * (1 - (34/35)^10)`. -/
def npvBase : ℚ := 1700000 * (1 - (34 / 35 : ℚ) ^ 10)

lemma nyears_baseParams : nyears baseParams = 10 := by
  norm_num [nyears, pyInt, Rat.floor, baseParams]
  decide

/-! Sensitivity analysis (Advanced Analytics tab, lines 172–201). -/

/-- The six options offered by the sensitivity-parameter selectbox. -/
def sens_options : List String :=
  ["Land Cost", "Construction Cost", "Maintenance Cost",
   "Inflation Rate", "Discount Rate", "Occupancy Rate"]

/-- The parameter variables the sensitivity analysis can perturb. -/
inductive SensParam
  | landCost
  | constructionCost
  | maintenanceCost
  | inflationRate
  | discountRate
  | occupancyRate
deriving DecidableEq

/-- The dynamic lookup `locals()[name.lower().replace(" ", "_")]`: which
parameter variable a selectbox string resolves to.  A string whose
constructed variable name is not among the locals raises a `KeyError`,
modelled as `none`. -/
def sensitivity_lookup : String → Option SensParam
  | "Land Cost" => some SensParam.landCost
  | "Construction Cost" => some SensParam.constructionCost
  | "Maintenance Cost" => some SensParam.maintenanceCost
  | "Inflation Rate" => some SensParam.inflationRate
  | "Discount Rate" => some SensParam.discountRate
  | "Occupancy Rate" => some SensParam.occupancyRate
  | _ => none

/-- Reading the perturbed variable from the locals. -/
def getParam : SensParam → Params → ℚ
  | SensParam.landCost, p => p.land_cost
  | SensParam.constructionCost, p => p.construction_cost
  | SensParam.maintenanceCost, p => p.maintenance_cost
  | SensParam.inflationRate, p => p.inflation_rate
  | SensParam.discountRate, p => p.discount_rate
  | SensParam.occupancyRate, p => p.occupancy_rate

/-- Writing the perturbed variable back into the locals. -/
def setParam : SensParam → ℚ → Params → Params
  | SensParam.landCost, v, p => { p with land_cost := v }
  | SensParam.constructionCost, v, p => { p with construction_cost := v }
  | SensParam.maintenanceCost, v, p => { p with maintenance_cost := v }
  | SensParam.inflationRate, v, p => { p with inflation_rate := v }
  | SensParam.discountRate, v, p => { p with discount_rate := v }
  | SensParam.occupancyRate, v, p => { p with occupancy_rate := v }

/-- `range(sensitivity_range[0], sensitivity_range[1] + 1, 5)` with the
fixed range `[10, 50]`: the perturbation percentages. -/
def perturbation_steps : List ℚ := [10, 15, 20, 25, 30, 35, 40, 45, 50]

/-- `sensitivity_values = [base_value * (1 + i/100) for i in ...]`. -/
def sensitivity_values (base : ℚ) : List ℚ :=
  perturbation_steps.map (fun i => base * (1 + i / 100))

/-- The total-cost expression recomputed inside the sensitivity loop
(lines 187–193): a ratio-based maintenance term
`maintenance_cost * spaces * years * (1+inflation_rate/100) / (discount_rate/100)`
stands in place of the NPV loop, and the environmental term is the
precomputed `total_environmental_cost` value (`envTerm`). -/
def shortcut_total_cost (envTerm : ℚ) (p : Params) : Option ℚ :=
  (pydiv (p.maintenance_cost * p.spaces * p.years * (1 + p.inflation_rate / 100))
      (p.discount_rate / 100)).map (fun m =>
    p.land_cost * p.spaces * 15 + p.construction_cost * p.spaces + m +
      p.land_cost * p.spaces * 15 * p.opportunity_multiplier + envTerm)

/-- The program state the sensitivity block touches: the parameter
variables, the `total_cost` variable it overwrites, and the accumulated
`sensitivity_results` list. -/
structure SweepState where
  params : Params
  total_cost_var : ℚ
  results : List ℚ
deriving DecidableEq

/-- The `for value in sensitivity_values:` loop: each iteration assigns the
perturbed variable, reassigns `total_cost` with the recomputed value, and
appends it to the results; a `ZeroDivisionError` aborts the script
(`none`). -/
def sweep_loop (name : SensParam) (envTerm : ℚ) : List ℚ → SweepState → Option SweepState
  | [], s => some s
  | v :: vs, s =>
    match shortcut_total_cost envTerm (setParam name v s.params) with
    | none => none
    | some tc => sweep_loop name envTerm vs ⟨setParam name v s.params, tc, s.results ++ [tc]⟩

/-- The whole sensitivity-analysis block (lines 180–201): read the base
value of the selected variable, sweep over the nine perturbed values, then
reset the perturbed variable to the base value.  `t0` is the value the
`total_cost` variable holds on entry (the Calculator tab's total). -/
def run_sensitivity (name : SensParam) (p : Params) (t0 : ℚ) : Option SweepState :=
  (sweep_loop name (total_environmental_cost p)
      (sensitivity_values (getParam name p)) ⟨p, t0, []⟩).map
    (fun s => ⟨setParam name (getParam name p) s.params, s.total_cost_var, s.results⟩)

/-- Stated from the spec wording that the sensitivity and Monte Carlo
recomputations are compared against: the Cost Model's five-component total
of §4.1 with the period-by-period NPV maintenance sum replaced by the ratio
shortcut `maintenanceCost × spaces × years × (1+inflationRate/100) /
(discountRate/100)`, the environmental component frozen at the base
scenario's value. -/
def modified_model_total (base p : Params) : ℚ :=
  total_land_cost p + total_construction_cost p +
    p.maintenance_cost * p.spaces * p.years * (1 + p.inflation_rate / 100) /
      (p.discount_rate / 100) +
    total_opportunity_cost p + total_environmental_cost base

/-! Monte Carlo simulation (lines 203–242). -/

/-- One Monte Carlo iteration (lines 215–225): the three sampled costs are
clamped at 0 with `max(0, ...)`, then the same ratio-shortcut total-cost
expression as the sensitivity loop is evaluated on them. -/
def sim_total_cost (p : Params) (dl dc dm : ℚ) : Option ℚ :=
  (pydiv (max 0 dm * p.spaces * p.years * (1 + p.inflation_rate / 100))
      (p.discount_rate / 100)).map (fun m =>
    max 0 dl * p.spaces * 15 + max 0 dc * p.spaces + m +
      max 0 dl * p.spaces * 15 * p.opportunity_multiplier +
      total_environmental_cost p)

/-- The Monte Carlo loop with `n` iterations; `draws k` gives the three
normal samples of iteration `k` (a normal sample can be any real number, so
the draw is an arbitrary rational).  A `ZeroDivisionError` in any iteration
aborts the script (`none`). -/
def simulation_loop (p : Params) (draws : ℕ → ℚ × ℚ × ℚ) : ℕ → Option (List ℚ)
  | 0 => some []
  | n + 1 =>
    match simulation_loop p draws n with
    | none => none
    | some acc =>
      match sim_total_cost p (draws n).1 (draws n).2.1 (draws n).2.2 with
      | none => none
      | some t => some (acc ++ [t])

/-- `np.mean`: the arithmetic mean; on an empty list numpy emits a warning
and yields `nan`, modelled as `none`. -/
def np_mean (xs : List ℚ) : Option ℚ :=
  if xs.length = 0 then none else some (xs.sum / xs.length)

/-- `np.median`: middle element of the sorted list (mean of the two middle
elements for even length); `nan` (`none`) on an empty list. -/
def np_median (xs : List ℚ) : Option ℚ :=
  if xs.length = 0 then none
  else
    let s := List.insertionSort (· ≤ ·) xs
    if xs.length % 2 = 1 then some (s.getD (xs.length / 2) 0)
    else some ((s.getD (xs.length / 2 - 1) 0 + s.getD (xs.length / 2) 0) / 2)

/-- The square of `np.std(xs)` (population standard deviation, `ddof = 0`;
the square root itself is irrational in general).  `np.std` yields `nan` on
an empty list; it returns 0 exactly when this returns `some 0`. -/
def np_std_sq (xs : List ℚ) : Option ℚ :=
  (np_mean xs).map (fun m => (xs.map (fun x => (x - m) ^ 2)).sum / xs.length)

/-- The square of `stats.sem(xs) = np.std(xs, ddof=1) / sqrt(len(xs))`:
with `ddof = 1` the result is `nan` (`none`) unless the list has at least
two elements. -/
def sem_sq (xs : List ℚ) : Option ℚ :=
  if xs.length ≤ 1 then none
  else (np_mean xs).map (fun m =>
    (xs.map (fun x => (x - m) ^ 2)).sum / ((xs.length : ℚ) - 1) / xs.length)

/-- `stats.t.interval(0.95, df, loc, scale)`: scipy yields `(nan, nan)` when
`df < 1` or `loc`/`scale` is `nan` (modelled `none`); for `df ≥ 1` it
returns `loc ± tq·scale`, where the t-distribution quantile `tq` is
transcendental and the halfwidth `tq·scale` is abstracted as the parameter
`hw`. -/
def t_interval (hw : ℚ) (df : ℤ) (loc : Option ℚ) (scale : Option ℚ) : Option (ℚ × ℚ) :=
  match loc, scale with
  | some l, some _ => if df ≤ 0 then none else some (l - hw, l + hw)
  | _, _ => none

/-- The confidence-interval computation of the Monte Carlo block (line 237):
`stats.t.interval(0.95, len(results) - 1, loc=mean, scale=sem)`. -/
def mc_confidence_interval (hw : ℚ) (xs : List ℚ) : Option (ℚ × ℚ) :=
  t_interval hw ((xs.length : ℤ) - 1) (np_mean xs) (sem_sq xs)

/-! Scenario store (tab1 save block and tab2 comparison/removal). -/

/-- One saved scenario snapshot (the dict of lines 104–119). -/
structure Scenario where
  name : String
  parking_type : String
  total_cost_npv : ℚ
  cost_per_space_val : ℚ
  cost_per_year_val : ℚ
  land_cost : ℚ
  construction_cost : ℚ
  maintenance_cost_npv : ℚ
  opportunity_cost : ℚ
  environmental_cost : ℚ
  inflation_rate : ℚ
  discount_rate : ℚ
  occupancy_rate : ℚ
  timestamp : String
deriving DecidableEq

/-- `st.session_state['scenario_data'].append(scenario_data)`. -/
def save_scenario (store : List Scenario) (s : Scenario) : List Scenario :=
  store ++ [s]

/-- The Remove Selected Scenarios action (line 132): keep exactly the
scenarios whose name is not among the selected names. -/
def remove_scenarios (store : List Scenario) (names : List String) : List Scenario :=
  store.filter (fun s => !names.contains s.name)

/-! Urban Planning tab (lines 281–296). -/

/-- `estimated_parking_demand = int(population * car_ownership_rate * parking_demand_factor)`. -/
def estimated_parking_demand (population car_ownership_rate parking_demand_factor : ℚ) : ℤ :=
  pyInt (population * car_ownership_rate * parking_demand_factor)

/-- `demand_change = price_elasticity * (parking_fee / 2 - 1)` (base price
of $2/hour). -/
def demand_change (price_elasticity parking_fee : ℚ) : ℚ :=
  price_elasticity * (parking_fee / 2 - 1)

/-- `new_demand = int(estimated_parking_demand * (1 + demand_change))`. -/
def new_demand (est : ℤ) (dc : ℚ) : ℤ :=
  pyInt ((est : ℚ) * (1 + dc))

/-! Helper lemmas. -/

lemma le_pyInt {z : ℤ} {q : ℚ} (h0 : 0 ≤ q) (h : (z : ℚ) ≤ q) : z ≤ pyInt q := by
  rw [pyInt, if_pos h0]
  exact Rat.le_floor.2 h

lemma pyInt_nonneg {q : ℚ} (h : 0 ≤ q) : 0 ≤ pyInt q :=
  le_pyInt h (by exact_mod_cast h)

lemma setParam_setParam (name : SensParam) (v w : ℚ) (p : Params) :
    setParam name v (setParam name w p) = setParam name v p := by
  cases name <;> rfl

lemma setParam_getParam (name : SensParam) (p : Params) :
    setParam name (getParam name p) p = p := by
  cases name <;> rfl

lemma shortcut_eq_modified (base q : Params) (hd : q.discount_rate ≠ 0) :
    shortcut_total_cost (total_environmental_cost base) q =
      some (modified_model_total base q) := by
  have h : q.discount_rate / 100 ≠ 0 := div_ne_zero hd (by norm_num)
  rw [shortcut_total_cost, modified_model_total, total_land_cost,
    total_construction_cost, total_opportunity_cost, pydiv, if_neg h]
  rfl

lemma sweep_loop_spec (name : SensParam) (env : ℚ) (p : Params) (f : ℚ → ℚ) :
    ∀ vs : List ℚ,
      (∀ v ∈ vs, shortcut_total_cost env (setParam name v p) = some (f v)) →
      ∀ (w t0 : ℚ) (acc : List ℚ),
        sweep_loop name env vs ⟨setParam name w p, t0, acc⟩ =
          some ⟨setParam name (vs.getLastD w) p,
                vs.foldl (fun _ v => f v) t0, acc ++ vs.map f⟩ := by
  intro vs
  induction vs with
  | nil => intro _ w t0 acc; simp [sweep_loop]
  | cons v vs ih =>
    intro hs w t0 acc
    have h1 := hs v (List.mem_cons_self v vs)
    simp only [sweep_loop, setParam_setParam, h1]
    rw [ih (fun u hu => hs u (List.mem_cons_of_mem v hu)) v (f v) (acc ++ [f v])]
    simp only [List.getLastD_cons, List.foldl_cons, List.map_cons, List.append_assoc,
      List.singleton_append]

lemma run_sensitivity_eq (name : SensParam) (p : Params) (t0 : ℚ) (f : ℚ → ℚ)
    (hs : ∀ v ∈ sensitivity_values (getParam name p),
        shortcut_total_cost (total_environmental_cost p) (setParam name v p) = some (f v)) :
    run_sensitivity name p t0 =
      some ⟨p, f (getParam name p * (1 + 50 / 100)),
            (sensitivity_values (getParam name p)).map f⟩ := by
  rw [run_sensitivity]
  have h0 : (⟨p, t0, ([] : List ℚ)⟩ : SweepState) =
      ⟨setParam name (getParam name p) p, t0, []⟩ := by rw [setParam_getParam]
  rw [h0, sweep_loop_spec name _ p f _ hs (getParam name p) t0 []]
  simp [setParam_setParam, setParam_getParam, sensitivity_values, perturbation_steps]

/-! Claim theorems. -/

lemma npvSum_baseParams : npvSum baseParams (nyears baseParams) = npvBase := by
  rw [nyears_baseParams]
  norm_num [npvSum, baseParams, npvBase, Finset.sum_range_succ]

/-- C1 counterexample: at the example scenario the computed NPV maintenance
sum is `1700000·(1 − (34/35)^10) ≈ 427793.43`, which exceeds the claimed
"approximately 404,700" by more than five percent — the stated approximate
value does not match the period-by-period formula the claim itself
requires. -/
theorem C1_counterexample :
    npv_maintenance baseParams = some npvBase ∧
    404700 * (105 / 100) < npvBase ∧ npvBase < 427794 := by
  refine ⟨?_, by norm_num [npvBase], by norm_num [npvBase]⟩
  rw [npv_maintenance_eq baseParams (by norm_num [baseParams])]
  rw [npvSum_baseParams]

/-- C1 amended: at the example scenario the components are
totalLandCost = 1,500,000, totalConstructionCost = 500,000,
totalEnvironmentalCost = 100,000, totalOpportunityCost = 75,000,000,
npvMaintenanceCost equals the 10-period discounted sum
`1700000·(1 − (34/35)^10) ≈ 427,793` (not ≈ 404,700), and totalCost is
the sum of the five components. -/
theorem C1_example_scenario :
    total_land_cost baseParams = 1500000 ∧
    total_construction_cost baseParams = 500000 ∧
    total_environmental_cost baseParams = 100000 ∧
    total_opportunity_cost baseParams = 75000000 ∧
    npv_maintenance baseParams = some npvBase ∧
    total_cost baseParams =
      some (1500000 + 500000 + npvBase + 75000000 + 100000) := by
  refine ⟨by norm_num [total_land_cost, baseParams],
          by norm_num [total_construction_cost, baseParams],
          by norm_num [total_environmental_cost, baseParams],
          by norm_num [total_opportunity_cost, total_land_cost, baseParams],
          ?_, ?_⟩
  · rw [npv_maintenance_eq baseParams (by norm_num [baseParams]), npvSum_baseParams]
  · rw [total_cost_eq baseParams (by norm_num [baseParams])]
    congr 1
    rw [total_cost_val, npvSum_baseParams]
    norm_num [total_land_cost, total_construction_cost, total_opportunity_cost,
      total_environmental_cost, baseParams]

/-- The parameter set used to refute the non-integer-years half of C4:
years = 3/2, inflation = discount = 2. -/
def c4Params : Params :=
  ⟨1, 3 / 2, 0, 0, 0, 500, 2, 2, 0, 0, 0, 0, 0⟩

lemma nyears_c4Params : nyears c4Params = 1 := by
  norm_num [nyears, pyInt, Rat.floor, c4Params]

/-- C4 counterexample: with years = 3/2 and inflation = discount = 2 the
loop runs `int(3/2) = 1` period, so npvMaintenanceCost is 500, while
maintenanceCost × spaces × years = 750 — far outside any floating-point
tolerance, so the claim fails for non-integer years. -/
theorem C4_counterexample :
    ValidParams c4Params ∧
    c4Params.inflation_rate = c4Params.discount_rate ∧
    npv_maintenance c4Params = some 500 ∧
    c4Params.maintenance_cost * c4Params.spaces * c4Params.years = 750 ∧
    npv_maintenance c4Params ≠
      some (c4Params.maintenance_cost * c4Params.spaces * c4Params.years) := by
  have heval : npv_maintenance c4Params = some 500 := by
    rw [npv_maintenance_eq c4Params (by norm_num [c4Params]), nyears_c4Params]
    norm_num [npvSum, c4Params, Finset.sum_range_succ]
  refine ⟨by norm_num [ValidParams, c4Params], rfl, heval, by norm_num [c4Params], ?_⟩
  rw [heval]
  norm_num [c4Params]

/-- C4 amended: for every valid parameter set with inflationRatePct equal to
discountRatePct, npvMaintenanceCost equals
maintenanceCostPerSpacePerYear × spaces × int(years) — the whole-period
count of the loop — exactly (for integer years this is the claimed
maintenanceCost × spaces × years). -/
theorem C4_equal_rates_npv (p : Params) (hp : ValidParams p)
    (h : p.inflation_rate = p.discount_rate) :
    npv_maintenance p = some (p.maintenance_cost * p.spaces * (nyears p : ℚ)) := by
  obtain ⟨hs, hy, hm0, hm1, hl, hc, hmc, hinf, hdisc, hocc, henv, hfee, hown, hfac⟩ := hp
  have hd : (1 : ℚ) + p.discount_rate / 100 ≠ 0 := one_add_div_ne_zero hdisc
  rw [npv_maintenance_eq p hd]
  congr 1
  rw [npvSum]
  have hterm : ∀ t : ℕ,
      p.maintenance_cost * p.spaces * (1 + p.inflation_rate / 100) ^ (t + 1) /
        (1 + p.discount_rate / 100) ^ (t + 1) =
      p.maintenance_cost * p.spaces := by
    intro t
    rw [h, mul_div_assoc, div_self (pow_ne_zero _ hd), mul_one]
  rw [Finset.sum_congr rfl fun t _ => hterm t]
  rw [Finset.sum_const, Finset.card_range, nsmul_eq_mul]
  ring

/-- A valid parameter set with equal rates used to witness C4. -/
def c4Witness : Params := ⟨2, 3, 1, 1, 1, 7, 4, 4, 0, 1, 0, 0, 0⟩

theorem C4_witness :
    npv_maintenance c4Witness =
      some (c4Witness.maintenance_cost * c4Witness.spaces * (nyears c4Witness : ℚ)) :=
  C4_equal_rates_npv c4Witness (by decide) rfl

/-- The four nonnegative cost-rate inputs of the Cost Model. -/
inductive CostRate
  | landCost
  | constructionCost
  | maintenanceCost
  | environmentalCost
deriving DecidableEq

/-- Reading a cost-rate input. -/
def getRate : CostRate → Params → ℚ
  | CostRate.landCost, p => p.land_cost
  | CostRate.constructionCost, p => p.construction_cost
  | CostRate.maintenanceCost, p => p.maintenance_cost
  | CostRate.environmentalCost, p => p.environmental_cost

/-- Setting a cost-rate input. -/
def setRate : CostRate → ℚ → Params → Params
  | CostRate.landCost, v, p => { p with land_cost := v }
  | CostRate.constructionCost, v, p => { p with construction_cost := v }
  | CostRate.maintenanceCost, v, p => { p with maintenance_cost := v }
  | CostRate.environmentalCost, v, p => { p with environmental_cost := v }

lemma nyears_setRate (f : CostRate) (v : ℚ) (p : Params) :
    nyears (setRate f v p) = nyears p := by
  cases f <;> rfl

lemma npvSum_factor (p : Params) (n : ℕ) :
    npvSum p n = p.maintenance_cost *
      ∑ t ∈ Finset.range n,
        p.spaces * (1 + p.inflation_rate / 100) ^ (t + 1) /
          (1 + p.discount_rate / 100) ^ (t + 1) := by
  rw [npvSum, Finset.mul_sum]
  exact Finset.sum_congr rfl fun t _ => by ring

lemma npvSum_setRate_land (v : ℚ) (p : Params) (n : ℕ) :
    npvSum (setRate CostRate.landCost v p) n = npvSum p n := rfl

lemma npvSum_setRate_construction (v : ℚ) (p : Params) (n : ℕ) :
    npvSum (setRate CostRate.constructionCost v p) n = npvSum p n := rfl

lemma npvSum_setRate_environmental (v : ℚ) (p : Params) (n : ℕ) :
    npvSum (setRate CostRate.environmentalCost v p) n = npvSum p n := rfl

/-- C5: increasing any single nonnegative cost-rate input (land,
construction, maintenance, environmental) while holding the other
parameters fixed never decreases totalCost. -/
theorem C5_cost_rate_monotone (p : Params) (hp : ValidParams p) (f : CostRate)
    (v : ℚ) (hv : getRate f p ≤ v) :
    ∃ t t2, total_cost p = some t ∧ total_cost (setRate f v p) = some t2 ∧ t ≤ t2 := by
  obtain ⟨hs, hy, hm0, hm1, hl, hc, hmc, hinf, hdisc, hocc, henv, hfee, hown, hfac⟩ := hp
  have hs0 : (0 : ℚ) ≤ p.spaces := le_trans zero_le_one hs
  have hy0 : (0 : ℚ) ≤ p.years := le_trans zero_le_one hy
  have hd : (1 : ℚ) + p.discount_rate / 100 ≠ 0 := one_add_div_ne_zero hdisc
  cases f with
  | landCost =>
    rw [getRate] at hv
    refine ⟨_, _, total_cost_eq p hd, total_cost_eq _ (by simpa [setRate] using hd), ?_⟩
    simp only [total_cost_val]
    rw [nyears_setRate, npvSum_setRate_land]
    simp only [total_land_cost, total_construction_cost,
      total_opportunity_cost, total_environmental_cost, setRate]
    nlinarith [mul_nonneg (mul_nonneg (sub_nonneg.2 hv) hs0) hm0,
      mul_nonneg (sub_nonneg.2 hv) hs0]
  | constructionCost =>
    rw [getRate] at hv
    refine ⟨_, _, total_cost_eq p hd, total_cost_eq _ (by simpa [setRate] using hd), ?_⟩
    simp only [total_cost_val]
    rw [nyears_setRate, npvSum_setRate_construction]
    simp only [total_land_cost, total_construction_cost,
      total_opportunity_cost, total_environmental_cost, setRate]
    nlinarith [mul_nonneg (sub_nonneg.2 hv) hs0]
  | maintenanceCost =>
    rw [getRate] at hv
    refine ⟨_, _, total_cost_eq p hd, total_cost_eq _ (by simpa [setRate] using hd), ?_⟩
    have hU : 0 ≤ ∑ t ∈ Finset.range (nyears p),
        p.spaces * (1 + p.inflation_rate / 100) ^ (t + 1) /
          (1 + p.discount_rate / 100) ^ (t + 1) :=
      Finset.sum_nonneg fun t _ =>
        div_nonneg (mul_nonneg hs0 (pow_nonneg (by linarith) _))
          (pow_nonneg (by linarith) _)
    simp only [total_cost_val]
    rw [nyears_setRate, npvSum_factor p, npvSum_factor (setRate CostRate.maintenanceCost v p)]
    simp only [total_land_cost, total_construction_cost,
      total_opportunity_cost, total_environmental_cost, setRate]
    nlinarith [mul_le_mul_of_nonneg_right hv hU]
  | environmentalCost =>
    rw [getRate] at hv
    refine ⟨_, _, total_cost_eq p hd, total_cost_eq _ (by simpa [setRate] using hd), ?_⟩
    simp only [total_cost_val]
    rw [nyears_setRate, npvSum_setRate_environmental]
    simp only [total_land_cost, total_construction_cost,
      total_opportunity_cost, total_environmental_cost, setRate]
    nlinarith [mul_nonneg (mul_nonneg (sub_nonneg.2 hv) hs0) hy0]

theorem C5_witness :
    ∃ t t2, total_cost baseParams = some t ∧
      total_cost (setRate CostRate.landCost 2000 baseParams) = some t2 ∧ t ≤ t2 :=
  C5_cost_rate_monotone baseParams (by decide) CostRate.landCost 2000 (by decide)

lemma shortcut_modified_on_values (p : Params) (hd : p.discount_rate ≠ 0)
    (name : SensParam) :
    ∀ v ∈ sensitivity_values (getParam name p),
      shortcut_total_cost (total_environmental_cost p) (setParam name v p) =
        some (modified_model_total p (setParam name v p)) := by
  intro v hv
  refine shortcut_eq_modified p _ ?_
  cases name with
  | landCost => simpa [setParam] using hd
  | constructionCost => simpa [setParam] using hd
  | maintenanceCost => simpa [setParam] using hd
  | inflationRate => simpa [setParam] using hd
  | occupancyRate => simpa [setParam] using hd
  | discountRate =>
    simp only [setParam]
    simp only [sensitivity_values, perturbation_steps, getParam, List.mem_map,
      List.mem_cons, List.not_mem_nil, or_false] at hv
    obtain ⟨i, hi, rfl⟩ := hv
    rcases hi with h | h | h | h | h | h | h | h | h <;> subst h <;>
      exact mul_ne_zero hd (by norm_num)

/-- C2 counterexample: at the example scenario, a Monte Carlo iteration
whose samples equal the base values recomputes a total cost of 87,300,000
(the ratio-shortcut maintenance term contributes 10,200,000), while the
Cost Model's §4.1 total is 77,100,000 + npvBase ≈ 77,527,793 — the two
recomputations do not agree with the Cost Model formula. -/
theorem C2_counterexample :
    sim_total_cost baseParams 1000 5000 500 = some 87300000 ∧
    total_cost baseParams = some (77100000 + npvBase) ∧
    sim_total_cost baseParams 1000 5000 500 ≠ total_cost baseParams := by
  have hsim : sim_total_cost baseParams 1000 5000 500 = some 87300000 := by
    rw [sim_total_cost, pydiv, if_neg (by norm_num [baseParams])]
    norm_num [total_environmental_cost, baseParams]
  have htot : total_cost baseParams = some (77100000 + npvBase) := by
    rw [total_cost_eq baseParams (by norm_num [baseParams])]
    congr 1
    rw [total_cost_val, npvSum_baseParams]
    norm_num [total_land_cost, total_construction_cost, total_opportunity_cost,
      total_environmental_cost, baseParams]
    ring
  refine ⟨hsim, htot, ?_⟩
  rw [hsim, htot]
  intro h
  rw [Option.some_inj] at h
  rw [npvBase] at h
  norm_num at h

/-- C2 amended: for every valid parameter set with nonzero discount rate,
the totals recomputed by the Sensitivity Analyzer (for each perturbation)
and by each Monte Carlo iteration both equal the Cost Model's five-component
formula with the period-by-period NPV maintenance sum replaced by the ratio
shortcut maintenanceCost × spaces × years × (1+inflationRate/100) /
(discountRate/100) — not the §4.1 formula itself. -/
theorem C2_amended (p : Params) (hp : ValidParams p) (hd : p.discount_rate ≠ 0) :
    (∀ (name : SensParam) (t0 : ℚ),
      run_sensitivity name p t0 =
        some ⟨p,
          modified_model_total p (setParam name (getParam name p * (1 + 50 / 100)) p),
          (sensitivity_values (getParam name p)).map
            (fun v => modified_model_total p (setParam name v p))⟩) ∧
    (∀ dl dc dm : ℚ,
      sim_total_cost p dl dc dm =
        some (modified_model_total p
          { p with land_cost := max 0 dl, construction_cost := max 0 dc,
                   maintenance_cost := max 0 dm })) := by
  constructor
  · intro name t0
    exact run_sensitivity_eq name p t0 _ (shortcut_modified_on_values p hd name)
  · intro dl dc dm
    rw [sim_total_cost, pydiv, if_neg (div_ne_zero hd (by norm_num))]
    rw [modified_model_total, total_land_cost, total_construction_cost,
      total_opportunity_cost]
    rfl

theorem C2_witness :
    sim_total_cost baseParams 1000 5000 500 =
      some (modified_model_total baseParams
        { baseParams with
            land_cost := max 0 1000
            construction_cost := max 0 5000
            maintenance_cost := max 0 500 }) :=
  (C2_amended baseParams (by decide) (by decide)).2 1000 5000 500

/-- The example scenario with discountRatePct set to 0. -/
def base0 : Params :=
  ⟨100, 10, 50, 1000, 5000, 500, 2, 0, 80, 100, 2, 50, 1⟩

lemma shortcut_none (env : ℚ) (q : Params) (h : q.discount_rate = 0) :
    shortcut_total_cost env q = none := by
  rw [shortcut_total_cost, pydiv, if_pos (by rw [h]; norm_num)]
  rfl

lemma sim_total_cost_none (p : Params) (h : p.discount_rate = 0) (a b c : ℚ) :
    sim_total_cost p a b c = none := by
  rw [sim_total_cost, pydiv, if_pos (by rw [h]; norm_num)]
  rfl

lemma simulation_loop_none (p : Params) (h : p.discount_rate = 0)
    (draws : ℕ → ℚ × ℚ × ℚ) (n : ℕ) : simulation_loop p draws (n + 1) = none := by
  cases hn : simulation_loop p draws n <;>
    simp [simulation_loop, hn, sim_total_cost_none p h]

lemma run_sensitivity_none (p : Params) (h0 : p.discount_rate = 0)
    (name : SensParam) (t0 : ℚ) : run_sensitivity name p t0 = none := by
  rw [run_sensitivity]
  have hfirst : shortcut_total_cost (total_environmental_cost p)
      (setParam name (getParam name p * (1 + 10 / 100)) p) = none := by
    apply shortcut_none
    cases name <;> simp [setParam, getParam, h0]
  simp [sensitivity_values, perturbation_steps, sweep_loop, hfirst]

/-- C3 counterexample: with discountRatePct = 0 at the example scenario the
Cost Model itself is fine (its loop divides by (1+0)^t = 1), but the
Sensitivity Analyzer and the Monte Carlo Simulator recompute total cost by
dividing by discount_rate/100 = 0, so both raise ZeroDivisionError —
contradicting the claim that no computation divides by zero. -/
theorem C3_counterexample :
    ValidParams base0 ∧
    (total_cost base0).isSome = true ∧
    run_sensitivity SensParam.landCost base0 0 = none ∧
    simulation_loop base0 (fun _ => (1000, 5000, 500)) 1 = none := by
  refine ⟨by decide, ?_, ?_, ?_⟩
  · rw [total_cost_eq base0 (by norm_num [base0])]
    rfl
  · exact run_sensitivity_none base0 rfl SensParam.landCost 0
  · exact simulation_loop_none base0 rfl (fun _ => (1000, 5000, 500)) 0

/-- C3 amended: with discountRatePct = 0 the Cost Model's period-by-period
loop is well-defined (the per-period discount factor is 1) and produces the
total, but the Sensitivity Analyzer and the Monte Carlo Simulator (for any
positive iteration count) use a ratio-based shortcut dividing by
discountRate/100 and abort with a division by zero. -/
theorem C3_amended (p : Params) (hp : ValidParams p) (h0 : p.discount_rate = 0) :
    npv_maintenance p = some (npvSum p (nyears p)) ∧
    total_cost p = some (total_cost_val p) ∧
    (∀ (name : SensParam) (t0 : ℚ), run_sensitivity name p t0 = none) ∧
    (∀ (draws : ℕ → ℚ × ℚ × ℚ) (n : ℕ), simulation_loop p draws (n + 1) = none) := by
  obtain ⟨hs, hy, hm0, hm1, hl, hc, hmc, hinf, hdisc, hocc, henv, hfee, hown, hfac⟩ := hp
  have hd : (1 : ℚ) + p.discount_rate / 100 ≠ 0 := one_add_div_ne_zero hdisc
  refine ⟨npv_maintenance_eq p hd, total_cost_eq p hd,
    run_sensitivity_none p h0, simulation_loop_none p h0⟩

/-- A second valid parameter set with zero discount rate, witnessing C3. -/
def c3Witness : Params := ⟨2, 3, 1, 1, 1, 7, 4, 0, 0, 1, 0, 0, 0⟩

theorem C3_witness :
    npv_maintenance c3Witness = some (npvSum c3Witness (nyears c3Witness)) ∧
    run_sensitivity SensParam.maintenanceCost c3Witness 5 = none ∧
    simulation_loop c3Witness (fun _ => (1, 1, 1)) 3 = none :=
  ⟨(C3_amended c3Witness (by decide) rfl).1,
   (C3_amended c3Witness (by decide) rfl).2.2.1 SensParam.maintenanceCost 5,
   (C3_amended c3Witness (by decide) rfl).2.2.2 (fun _ => (1, 1, 1)) 2⟩

/-- C8 counterexample: running the sweep on the example scenario (with the
`total_cost` variable holding the base total 77,100,000 + npvBase) restores
the perturbed land-cost parameter, but leaves the `total_cost` variable
holding 125,550,000 — the recomputed value of the final +50% perturbation —
so state read later (the stored base total cost) IS left changed. -/
theorem C8_counterexample :
    (run_sensitivity SensParam.landCost baseParams (77100000 + npvBase)).map
        SweepState.params = some baseParams ∧
    (run_sensitivity SensParam.landCost baseParams (77100000 + npvBase)).map
        SweepState.total_cost_var = some 125550000 ∧
    (125550000 : ℚ) ≠ 77100000 + npvBase := by
  have hrun := run_sensitivity_eq SensParam.landCost baseParams (77100000 + npvBase) _
    (shortcut_modified_on_values baseParams (by norm_num [baseParams]) SensParam.landCost)
  refine ⟨by rw [hrun]; rfl, ?_, by rw [npvBase]; norm_num⟩
  rw [hrun, Option.map_some']
  congr 1
  norm_num [modified_model_total, setParam, getParam, total_land_cost,
    total_construction_cost, total_opportunity_cost, total_environmental_cost, baseParams]

/-- C8 amended: after the sweep the perturbed parameter (and the whole
parameter state) is restored to its exact original value, but the sweep
leaks one mutation: the `total_cost` variable is left holding the final
(+50%) perturbation's recomputed value instead of the base scenario's
total. -/
theorem C8_amended (p : Params) (hp : ValidParams p) (hd : p.discount_rate ≠ 0)
    (name : SensParam) (t0 : ℚ) :
    ∃ s : SweepState, run_sensitivity name p t0 = some s ∧ s.params = p ∧
      s.total_cost_var =
        modified_model_total p
          (setParam name (getParam name p * (1 + 50 / 100)) p) :=
  ⟨_, run_sensitivity_eq name p t0 _ (shortcut_modified_on_values p hd name),
    rfl, rfl⟩

theorem C8_witness :
    ∃ s : SweepState, run_sensitivity SensParam.inflationRate baseParams 0 = some s ∧
      s.params = baseParams ∧
      s.total_cost_var =
        modified_model_total baseParams
          (setParam SensParam.inflationRate
            (getParam SensParam.inflationRate baseParams * (1 + 50 / 100)) baseParams) :=
  C8_amended baseParams (by decide) (by decide) SensParam.inflationRate 0

/-- An invalid parameter set: spaces = -1 ≤ 0 and a negative land cost. -/
def badParams : Params :=
  ⟨-1, 10, 50, -7, 5000, 500, 2, 5, 80, 100, 2, 50, 1⟩

/-- C6 counterexample: the calculation code performs no validation — on an
input with spaces ≤ 0 and a negative cost rate it does not reject anything
but computes and returns the complete breakdown (total cost, cost per space,
cost per year). -/
theorem C6_counterexample :
    ¬ ValidParams badParams ∧
    (total_cost badParams).isSome = true ∧
    (cost_per_space badParams).isSome = true ∧
    (cost_per_year badParams).isSome = true := by
  have hd : (1 : ℚ) + badParams.discount_rate / 100 ≠ 0 := by norm_num [badParams]
  refine ⟨by decide, ?_, ?_, ?_⟩
  · rw [total_cost_eq badParams hd]
    rfl
  · rw [cost_per_space, total_cost_eq badParams hd]
    norm_num [pydiv, badParams]
  · rw [cost_per_year, total_cost_eq badParams hd]
    norm_num [pydiv, badParams]

/-- C6 amended: the core computation performs no input validation of its
own: for any parameter values — including spaces ≤ 0, years ≤ 0 and
negative cost rates — it computes and returns a complete numeric breakdown
(provided only that no division by zero occurs: discount ≠ -100 for the NPV
loop, spaces ≠ 0 and years ≠ 0 for the per-space/per-year ratios).  Invalid
values are instead prevented at the widget input boundary (min_value
bounds), and the sensitivity selectbox offers exactly six names, each of
which resolves through the dynamic locals lookup. -/
theorem C6_amended :
    (∀ s ∈ sens_options, (sensitivity_lookup s).isSome = true) ∧
    (∀ p : Params, p.discount_rate ≠ -100 →
      (total_cost p).isSome = true ∧
      (p.spaces ≠ 0 → (cost_per_space p).isSome = true) ∧
      (p.years ≠ 0 → (cost_per_year p).isSome = true)) := by
  constructor
  · intro s hs
    fin_cases hs <;> rfl
  · intro p hd100
    have hd : (1 : ℚ) + p.discount_rate / 100 ≠ 0 := by
      intro h
      exact hd100 (by linarith)
    refine ⟨?_, ?_, ?_⟩
    · rw [total_cost_eq p hd]
      rfl
    · intro hsp
      rw [cost_per_space, total_cost_eq p hd]
      simp [pydiv, hsp]
    · intro hyr
      rw [cost_per_year, total_cost_eq p hd]
      simp [pydiv, hyr]

theorem C6_witness :
    (sensitivity_lookup "Discount Rate").isSome = true ∧
    (total_cost badParams).isSome = true :=
  ⟨C6_amended.1 "Discount Rate" (by simp [sens_options]),
   (C6_amended.2 badParams (by decide)).1⟩

lemma simulation_loop_succ (p : Params) (draws : ℕ → ℚ × ℚ × ℚ) (n : ℕ) :
    simulation_loop p draws (n + 1) =
      match simulation_loop p draws n with
      | none => none
      | some acc =>
        match sim_total_cost p (draws n).1 (draws n).2.1 (draws n).2.2 with
        | none => none
        | some t => some (acc ++ [t]) := rfl

/-- C7: Monte Carlo with count = 0 yields the empty sample and every summary
statistic — mean, median, standard deviation and the t-interval — comes out
undefined (numpy/scipy `nan`, embedded as `none`) without raising; with
count = 1 the confidence interval is likewise `none` (df = 0 and `sem` is
`nan`), while mean and median are returned and the population standard
deviation is 0. -/
theorem C7_degenerate_monte_carlo (p : Params) (draws : ℕ → ℚ × ℚ × ℚ) (hw : ℚ) :
    (simulation_loop p draws 0 = some [] ∧
      mc_confidence_interval hw [] = none ∧
      np_mean [] = none ∧ np_median [] = none ∧ np_std_sq [] = none) ∧
    (∀ xs : List ℚ, simulation_loop p draws 1 = some xs →
      ∃ t, xs = [t] ∧ mc_confidence_interval hw xs = none ∧
        np_mean xs = some t ∧ np_median xs = some t ∧ np_std_sq xs = some 0) := by
  refine ⟨⟨rfl, rfl, rfl, rfl, rfl⟩, ?_⟩
  intro xs h
  have h1 : simulation_loop p draws (0 + 1) = some xs := h
  rw [simulation_loop_succ] at h1
  simp only [simulation_loop] at h1
  cases hsim : sim_total_cost p (draws 0).1 (draws 0).2.1 (draws 0).2.2 with
  | none => rw [hsim] at h1; exact absurd h1 (by simp)
  | some t =>
    rw [hsim] at h1
    simp only [List.nil_append, Option.some_inj] at h1
    subst h1
    refine ⟨t, rfl, rfl, ?_, ?_, ?_⟩
    · simp [np_mean]
    · simp [np_median, List.insertionSort, List.orderedInsert]
    · simp [np_std_sq, np_mean]

/-- A parameter set whose single Monte Carlo iteration with zero draws
gives a zero total (all cost terms vanish), used to witness C7. -/
def c7Witness : Params := ⟨1, 1, 0, 0, 0, 0, 0, 5, 0, 0, 0, 0, 0⟩

theorem C7_witness :
    ∃ t, ([0] : List ℚ) = [t] ∧ mc_confidence_interval 3 [0] = none ∧
      np_mean [0] = some t ∧ np_median [0] = some t ∧ np_std_sq [0] = some 0 :=
  (C7_degenerate_monte_carlo c7Witness (fun _ => (0, 0, 0)) 3).2 [0]
    (by simp [simulation_loop, sim_total_cost, pydiv, total_environmental_cost, c7Witness])

/-- C9: removal is bulk-by-name — the result is the order-preserving
sublist of the store keeping exactly the scenarios (with all their fields)
whose name is not in the removed set; in particular saving two scenarios
with the same name and removing that name removes both. -/
theorem C9_remove_by_name (store : List Scenario) (names : List String) :
    (remove_scenarios store names).Sublist store ∧
    (∀ s : Scenario, s ∈ remove_scenarios store names ↔ s ∈ store ∧ s.name ∉ names) ∧
    (∀ s : Scenario, s.name ∉ names →
      (remove_scenarios store names).count s = store.count s) ∧
    (∀ (s1 s2 : Scenario) (n : String), s1.name = n → s2.name = n →
      remove_scenarios (save_scenario (save_scenario [] s1) s2) [n] = []) := by
  refine ⟨List.filter_sublist store, ?_, ?_, ?_⟩
  · intro s
    simp [remove_scenarios, List.mem_filter]
  · intro s hs
    exact List.count_filter (by simpa using hs)
  · intro s1 s2 n h1 h2
    subst h1
    simp [remove_scenarios, save_scenario, h2]

/-- Two scenarios sharing the name "dup", used to witness C9. -/
def scWitnessA : Scenario :=
  ⟨"dup", "Surface", 1, 2, 3, 4, 5, 6, 7, 8, 2, 5, 80, "2026-10-12 00:00:00"⟩

/-- A second scenario with the same name as `scWitnessA`. -/
def scWitnessB : Scenario :=
  ⟨"dup", "Underground", 9, 9, 9, 9, 9, 9, 9, 9, 0, 0, 0, "2026-10-12 00:00:01"⟩

theorem C9_witness :
    remove_scenarios (save_scenario (save_scenario [] scWitnessA) scWitnessB) ["dup"] = [] :=
  (C9_remove_by_name (save_scenario (save_scenario [] scWitnessA) scWitnessB)
    ["dup"]).2.2.2 scWitnessA scWitnessB "dup" rfl rfl

/-- C10: for elasticity in [0, 100] and a fee above the $2/hour base, the
demand change is nonnegative, the new estimated demand is at least the
estimated base demand, and the demand change is homogeneous in the
elasticity and additive in the shifted fee (fee/2 − 1) — linear scaling in
both factors. -/
theorem C10_demand_policy (population ownership factor elasticity fee : ℚ)
    (hpop : 0 ≤ population) (hown : 0 ≤ ownership) (hfac : 0 ≤ factor)
    (hel : 0 ≤ elasticity) (hel100 : elasticity ≤ 100) (hfee : 2 < fee) :
    0 ≤ demand_change elasticity fee ∧
    estimated_parking_demand population ownership factor ≤
      new_demand (estimated_parking_demand population ownership factor)
        (demand_change elasticity fee) ∧
    (∀ k : ℚ, demand_change (k * elasticity) fee = k * demand_change elasticity fee) ∧
    (∀ f g : ℚ, demand_change elasticity (f + g - 2) =
      demand_change elasticity f + demand_change elasticity g) := by
  have hdc : 0 ≤ demand_change elasticity fee := by
    rw [demand_change]
    apply mul_nonneg hel
    linarith
  refine ⟨hdc, ?_, fun k => by simp only [demand_change]; ring,
    fun f g => by simp only [demand_change]; ring⟩
  have hestnn : 0 ≤ estimated_parking_demand population ownership factor :=
    pyInt_nonneg (by positivity)
  have hestq : (0 : ℚ) ≤ (estimated_parking_demand population ownership factor : ℚ) := by
    exact_mod_cast hestnn
  rw [new_demand]
  apply le_pyInt
  · nlinarith [hdc, hestq]
  · nlinarith [mul_le_mul_of_nonneg_left (by linarith [hdc] : (1 : ℚ) ≤ 1 + demand_change elasticity fee) hestq]

theorem C10_witness :
    0 ≤ demand_change 50 3 ∧
    estimated_parking_demand 1000 50 1 ≤
      new_demand (estimated_parking_demand 1000 50 1) (demand_change 50 3) :=
  ⟨(C10_demand_policy 1000 50 1 50 3 (by decide) (by decide) (by decide) (by decide)
      (by decide) (by decide)).1,
   (C10_demand_policy 1000 50 1 50 3 (by decide) (by decide) (by decide) (by decide)
      (by decide) (by decide)).2.1⟩

end ParkingCalc
